import Mathlib

/-!
Shallow embedding of `src/task.py` (a personal contact/address-book manager):
field validators (`Phone`, `Birthday`), `Record`, `AddressBook` with the
weekly-birthday report, and the JSON persistence codec
(`save_to_file` / `load_from_file`), together with theorems settling the
spec claims about them.

Conventions:
- Python exceptions are modelled by the `PyErr` inductive; fallible
  operations return `Except PyErr _` (raising = `.error`).
- Python strings are Lean `String`s, processed through their `List Char`
  representation (`String.data`); `len` is the character count.
- The external JSON text layer (`open` + `json.load` / `json.dump`) is
  modelled at the JSON-value level: a file is `none` (FileNotFoundError),
  `some (.error ())` (content that is not valid JSON, JSONDecodeError), or
  `some (.ok j)` (content parsing to the JSON value `j`).  `json.dump`
  followed by `json.load` of the written file reproduces the same JSON
  value, so the codec claims are settled on JSON values.
-/

namespace Hw3

/-- Python exceptions raised (directly or by library calls) in `task.py`. -/
inductive PyErr where
  /-- `ValueError`, with the message of the `raise` site. -/
  | valueError (msg : String)
  /-- `TypeError` raised by a library call on a wrongly-typed argument. -/
  | typeError (msg : String)
  /-- `AttributeError` from attribute access on an object lacking it. -/
  | attributeError (msg : String)
  /-- `KeyError` from `d[k]` on a dict without the key `k`. -/
  | keyError (key : String)
deriving DecidableEq, Repr

/-- An ASCII decimal digit, code points 48–57 (`'0'`–`'9'`). -/
def isAsciiDigit (c : Char) : Bool :=
  decide (48 ≤ c.toNat ∧ c.toNat ≤ 57)

/-- Code-point ranges (inclusive) of the characters CPython `str.isdigit`
accepts: Unicode `Numeric_Type` `Decimal` or `Digit`.  Beyond ASCII `0-9`
this includes the decimal-digit blocks of other scripts and the
superscript/subscript and enclosed digits; the table lists the principal
ranges (it is exact on all characters the theorems of this file evaluate
it on, in particular on all of ASCII and on `'²'` U+00B2). -/
def pyDigitRanges : List (Nat × Nat) :=
  [(48, 57),            -- ASCII 0-9
   (178, 179),          -- superscripts two, three
   (185, 185),          -- superscript one
   (1632, 1641),        -- Arabic-Indic
   (1776, 1785),        -- Extended Arabic-Indic
   (1984, 1993),        -- NKo
   (2406, 2415),        -- Devanagari
   (2534, 2543),        -- Bengali
   (2662, 2671),        -- Gurmukhi
   (2790, 2799),        -- Gujarati
   (2918, 2927),        -- Oriya
   (3046, 3055),        -- Tamil
   (3174, 3183),        -- Telugu
   (3302, 3311),        -- Kannada
   (3430, 3439),        -- Malayalam
   (3558, 3567),        -- Sinhala
   (3664, 3673),        -- Thai
   (3792, 3801),        -- Lao
   (3872, 3881),        -- Tibetan
   (4160, 4169),        -- Myanmar
   (4240, 4249),        -- Myanmar Shan
   (4969, 4977),        -- Ethiopic digits one..nine
   (6112, 6121),        -- Khmer
   (6160, 6169),        -- Mongolian
   (6470, 6479),        -- Limbu
   (6608, 6618),        -- New Tai Lue
   (6784, 6793),        -- Tai Tham Hora
   (6800, 6809),        -- Tai Tham Tham
   (6992, 7001),        -- Balinese
   (7088, 7097),        -- Sundanese
   (7232, 7241),        -- Lepcha
   (7248, 7257),        -- Ol Chiki
   (8304, 8304),        -- superscript zero
   (8308, 8313),        -- superscript four..nine
   (8320, 8329),        -- subscript digits
   (9312, 9320),        -- circled one..nine
   (9332, 9340),        -- parenthesized one..nine
   (9352, 9360),        -- digit one..nine full stop
   (9450, 9450),        -- circled zero
   (9461, 9469),        -- double circled one..nine
   (10102, 10110),      -- dingbat negative circled
   (10112, 10120),      -- dingbat circled sans-serif
   (10122, 10130),      -- dingbat negative circled sans-serif
   (42528, 42537),      -- Vai
   (43216, 43225),      -- Saurashtra
   (43264, 43273),      -- Kayah Li
   (43472, 43481),      -- Javanese
   (43504, 43513),      -- Myanmar Tai Laing
   (43600, 43609),      -- Cham
   (44016, 44025),      -- Meetei Mayek
   (65296, 65305),      -- fullwidth digits
   (66720, 66729),      -- Osmanya
   (69734, 69743),      -- Brahmi
   (69872, 69881),      -- Sora Sompeng
   (69942, 69951),      -- Chakma
   (70096, 70105),      -- Sharada
   (120782, 120831)]    -- mathematical digits

/-- Model of CPython `str.isdigit` at the single-character level. -/
def pyIsDigitChar (c : Char) : Bool :=
  pyDigitRanges.any (fun p => decide (p.1 ≤ c.toNat ∧ c.toNat ≤ p.2))

/-- Model of CPython `str.isdigit` at the string level: nonempty and every
character is a digit. -/
def pyStrIsDigit (s : String) : Bool :=
  !s.data.isEmpty && s.data.all pyIsDigitChar

/-- `class Phone(Field)`: the validated 10-"digit" phone field; `value` is
the stored string (`Field.value`). -/
structure Phone where
  value : String
deriving DecidableEq, Repr

/-- `Phone.__init__` (task.py lines 15-19): raises
`ValueError("Invalid phone number format.")` unless the argument is a
string (always true here), `value.isdigit()` holds and `len(value) == 10`;
otherwise stores the string unchanged.  `len` counts characters. -/
def Phone.mk? (value : String) : Except PyErr Phone :=
  if !(pyStrIsDigit value) || value.data.length != 10 then
    .error (.valueError "Invalid phone number format.")
  else
    .ok ⟨value⟩

/-- Proleptic-Gregorian calendar date, as `datetime.date` (year 1-9999). -/
structure Date where
  year : Nat
  month : Nat
  day : Nat
deriving DecidableEq, Repr

/-- Standard Gregorian leap-year rule, as used by `datetime`. -/
def isLeapYear (y : Nat) : Bool :=
  y % 4 = 0 && (y % 100 != 0 || y % 400 = 0)

/-- Days in a month of a given year (`datetime`'s `_days_in_month`);
0 for a month outside 1-12 (such a month never reaches this check). -/
def daysInMonth (y m : Nat) : Nat :=
  match m with
  | 1 => 31
  | 2 => if isLeapYear y then 29 else 28
  | 3 => 31
  | 4 => 30
  | 5 => 31
  | 6 => 30
  | 7 => 31
  | 8 => 31
  | 9 => 30
  | 10 => 31
  | 11 => 30
  | 12 => 31
  | _ => 0

/-- Split a character list at every `'-'` (the tokenization step of
matching against the `strptime` format `"%d-%m-%Y"`, whose literal
separators are single dashes; the value tokens contain no dash, so the
regex matches exactly when the dash-separated parts match tokenwise). -/
def splitOnDash : List Char → List (List Char)
  | [] => [[]]
  | c :: rest =>
    let r := splitOnDash rest
    if c = '-' then [] :: r
    else
      match r with
      | h :: t => (c :: h) :: t
      | [] => [[c]]

/-- Start code points of the 66 blocks of Unicode 14 decimal digits
(category `Nd`), the character class CPython 3.11's Unicode-mode regex
`\d` matches (verified exhaustively against `unicodedata` 14.0.0: `\d`
matches a character iff its category is `Nd`).  Each block is ten
consecutive code points carrying the digit values 0-9 in order, so a
digit's value is its code point minus its block start — which is also
what `int()` uses when converting a matched group. -/
def ndDigitStarts : List Nat :=
  [48,       -- ASCII
   1632,     -- Arabic-Indic
   1776,     -- Extended Arabic-Indic
   1984,     -- NKo
   2406,     -- Devanagari
   2534,     -- Bengali
   2662,     -- Gurmukhi
   2790,     -- Gujarati
   2918,     -- Oriya
   3046,     -- Tamil
   3174,     -- Telugu
   3302,     -- Kannada
   3430,     -- Malayalam
   3558,     -- Sinhala Lith
   3664,     -- Thai
   3792,     -- Lao
   3872,     -- Tibetan
   4160,     -- Myanmar
   4240,     -- Myanmar Shan
   6112,     -- Khmer
   6160,     -- Mongolian
   6470,     -- Limbu
   6608,     -- New Tai Lue
   6784,     -- Tai Tham Hora
   6800,     -- Tai Tham Tham
   6992,     -- Balinese
   7088,     -- Sundanese
   7232,     -- Lepcha
   7248,     -- Ol Chiki
   42528,    -- Vai
   43216,    -- Saurashtra
   43264,    -- Kayah Li
   43472,    -- Javanese
   43504,    -- Myanmar Tai Laing
   43600,    -- Cham
   44016,    -- Meetei Mayek
   65296,    -- Fullwidth
   66720,    -- Osmanya
   68912,    -- Hanifi Rohingya
   69734,    -- Brahmi
   69872,    -- Sora Sompeng
   69942,    -- Chakma
   70096,    -- Sharada
   70384,    -- Khudawadi
   70736,    -- Newa
   70864,    -- Tirhuta
   71248,    -- Modi
   71360,    -- Takri
   71472,    -- Ahom
   71904,    -- Warang Citi
   72016,    -- Dives Akuru
   72784,    -- Bhaiksuki
   73040,    -- Masaram Gondi
   73120,    -- Gunjala Gondi
   92768,    -- Mro
   92864,    -- Tangsa
   93008,    -- Pahawh Hmong
   120782,   -- Mathematical Bold
   120792,   -- Mathematical Double-Struck
   120802,   -- Mathematical Sans-Serif
   120812,   -- Mathematical Sans-Serif Bold
   120822,   -- Mathematical Monospace
   123200,   -- Nyiakeng Puachue Hmong
   123632,   -- Wancho
   125264,   -- Adlam
   130032]   -- Segmented

/-- A Unicode decimal digit (category `Nd`): exactly what a `\d` in the
compiled `strptime` pattern matches. -/
def isNdDigit (c : Char) : Bool :=
  ndDigitStarts.any (fun lo => decide (lo ≤ c.toNat ∧ c.toNat ≤ lo + 9))

/-- Decimal value of a Unicode decimal digit: code point minus block
start; 0 on a non-digit (below, that case arises only for the space of a
space-padded day, whose contribution to `int()`'s value is indeed nil). -/
def ndDigitVal (c : Char) : Nat :=
  match ndDigitStarts.find? (fun lo => decide (lo ≤ c.toNat ∧ c.toNat ≤ lo + 9)) with
  | some lo => c.toNat - lo
  | none => 0

/-- Numeric value of a matched token (most significant first), as the
`int` conversion `strptime` applies to a matched group: positional base
10 over the decimal values of the — possibly mixed-script — digits, the
leading space of a space-padded day contributing 0 as `int()` strips
whitespace. -/
def digitsToNat (l : List Char) : Nat :=
  l.foldl (fun a c => a * 10 + ndDigitVal c) 0

/-- Full-token match of the CPython `_strptime` regex for `%d`,
`"3[0-1]|[1-2]\d|0[1-9]|[1-9]| [1-9]"`: the explicit character classes
are ASCII-only, but the `\d` after `[1-2]` matches any Unicode decimal
digit (so `"1٢"` is an accepted day token, value 12); a space-padded day
— a space then a nonzero ASCII digit — is also accepted; zero-padding is
optional. -/
def matchDayToken : List Char → Bool
  | [c] => decide (49 ≤ c.toNat ∧ c.toNat ≤ 57)
  | [c1, c2] => decide (
      (c1.toNat = 51 ∧ (c2.toNat = 48 ∨ c2.toNat = 49)) ∨
      ((c1.toNat = 49 ∨ c1.toNat = 50) ∧ isNdDigit c2 = true) ∨
      (c1.toNat = 48 ∧ 49 ≤ c2.toNat ∧ c2.toNat ≤ 57) ∨
      (c1 = ' ' ∧ 49 ≤ c2.toNat ∧ c2.toNat ≤ 57))
  | _ => false

/-- Full-token match of the CPython `_strptime` regex for `%m`,
`"1[0-2]|0[1-9]|[1-9]"`: every class is explicit, so — unlike `%d` and
`%Y` — the month accepts ASCII digits only. -/
def matchMonthToken : List Char → Bool
  | [c] => decide (49 ≤ c.toNat ∧ c.toNat ≤ 57)
  | [c1, c2] => decide (
      (c1.toNat = 49 ∧ 48 ≤ c2.toNat ∧ c2.toNat ≤ 50) ∨
      (c1.toNat = 48 ∧ 49 ≤ c2.toNat ∧ c2.toNat ≤ 57))
  | _ => false

/-- Full-token match of the CPython `_strptime` regex for `%Y`,
`"\d\d\d\d"`: exactly four Unicode decimal digits, of any scripts. -/
def matchYearToken (t : List Char) : Bool :=
  decide (t.length = 4) && t.all isNdDigit

/-- `datetime.strptime(s, "%d-%m-%Y")` restricted to the date it denotes:
the format regex must match the whole string, then the `datetime`
constructor validates the ranges (`MINYEAR ≤ year ≤ MAXYEAR`,
`1 ≤ month ≤ 12`, `1 ≤ day ≤ days_in_month`), raising `ValueError`
(here: `none`) otherwise. -/
def strptimeDMY (s : String) : Option Date :=
  match splitOnDash s.data with
  | [d, m, y] =>
    if matchDayToken d && matchMonthToken m && matchYearToken y then
      if decide (1 ≤ digitsToNat y ∧ digitsToNat y ≤ 9999 ∧
                 1 ≤ digitsToNat m ∧ digitsToNat m ≤ 12 ∧
                 1 ≤ digitsToNat d ∧
                 digitsToNat d ≤ daysInMonth (digitsToNat y) (digitsToNat m)) then
        some ⟨digitsToNat y, digitsToNat m, digitsToNat d⟩
      else none
    else none
  | _ => none

/-- `class Birthday(Field)`: the validated birthday field; `value` is the
raw stored string (the `strptime` result is discarded by the source). -/
structure Birthday where
  value : String
deriving DecidableEq, Repr

/-- `Birthday.__init__` (task.py lines 21-27): tries
`datetime.strptime(value, "%d-%m-%Y")`; on `ValueError` re-raises
`ValueError("Invalid date format. Use DD-MM-YYYY.")`, otherwise stores the
original string unchanged. -/
def Birthday.mk? (value : String) : Except PyErr Birthday :=
  match strptimeDMY value with
  | some _ => .ok ⟨value⟩
  | none => .error (.valueError "Invalid date format. Use DD-MM-YYYY.")

/-- `class Record` (task.py lines 29-62): `name` is the `Name` field's
stored string, `phones` the ordered list of the `Phone` objects' `value`
strings (`edit_phone` overwrites `value` with an arbitrary raw string, so
the list elements are plain strings), `birthday` the optional `Birthday`
field's stored string. -/
structure Record where
  name : String
  phones : List String
  birthday : Option String
deriving DecidableEq, Repr

/-- `Record.__init__`: a name, no phones, no birthday. -/
def Record.new (name : String) : Record :=
  ⟨name, [], none⟩

/-- `Record.add_phone` (lines 35-37): constructs `Phone(phone_number)`
(which validates, raising `ValueError` on bad input) and only then appends
it; on error the record is unchanged (the `.error` result carries no
record). -/
def Record.add_phone (r : Record) (phone_number : String) : Except PyErr Record := do
  let phone ← Phone.mk? phone_number
  .ok { r with phones := r.phones ++ [phone.value] }

/-- `Record.remove_phone` (lines 39-40): keeps every phone whose value
differs from the argument; a no-op when none matches. -/
def Record.remove_phone (r : Record) (phone_number : String) : Record :=
  { r with phones := r.phones.filter (fun v => v ≠ phone_number) }

/-- `Record.edit_phone` (lines 42-45): overwrites the `value` of every
phone equal to `old_phone_number` with the raw string `new_phone_number`;
no validation, no error on a missing match. -/
def Record.edit_phone (r : Record) (old_phone_number new_phone_number : String) : Record :=
  { r with phones := r.phones.map (fun v =>
      if v = old_phone_number then new_phone_number else v) }

/-- `Record.add_birthday` (lines 47-50): raises
`ValueError("A contact can have one birthday at most.")` when a birthday
is already set (before looking at the argument); otherwise validates via
`Birthday` and stores its value. -/
def Record.add_birthday (r : Record) (date : String) : Except PyErr Record :=
  if r.birthday.isSome then
    .error (.valueError "A contact can have one birthday at most.")
  else do
    let b ← Birthday.mk? date
    .ok { r with birthday := some b.value }

/-- `Record.find_phone` (lines 52-56): first phone with the given value,
else `None`. -/
def Record.find_phone (r : Record) (phone_number : String) : Option String :=
  r.phones.find? (fun v => v = phone_number)

/-- `class AddressBook(UserDict)`: the underlying `self.data` dict, as an
insertion-ordered association list with unique keys (Python dict
semantics; `dictInsert` below reproduces assignment). -/
structure AddressBook where
  data : List (String × Record)
deriving DecidableEq, Repr

/-- Python dict assignment `d[k] = v`: overwrite in place when the key is
present, else append (insertion order preserved). -/
def dictInsert (d : List (String × Record)) (k : String) (v : Record) :
    List (String × Record) :=
  if d.any (fun p => p.1 = k) then
    d.map (fun p => if p.1 = k then (k, v) else p)
  else d ++ [(k, v)]

/-- `AddressBook.add_record` (lines 65-66): `self.data[record.name.value] = record`. -/
def AddressBook.add_record (b : AddressBook) (r : Record) : AddressBook :=
  ⟨dictInsert b.data r.name r⟩

/-- `AddressBook.delete` (lines 68-70): remove the key if present. -/
def AddressBook.delete (b : AddressBook) (name : String) : AddressBook :=
  ⟨b.data.filter (fun p => p.1 ≠ name)⟩

/-- `AddressBook.find` (lines 72-73): `self.data.get(name, None)`. -/
def AddressBook.find (b : AddressBook) (name : String) : Option Record :=
  (b.data.find? (fun p => p.1 = name)).map (fun p => p.2)

/-- `user.birthday.value.date()` (task.py line 82).  When `birthday` is
`None`, `.value` raises `AttributeError`; otherwise `.value` is the stored
`str` (the `strptime` result was discarded by `Birthday.__init__`) and
`str` has no method `date`, so this raises `AttributeError` as well. -/
def birthdayValueDate (birthday : Option String) : Except PyErr Date :=
  match birthday with
  | none => .error (.attributeError "NoneType object has no attribute value")
  | some _ => .error (.attributeError "str object has no attribute date")

/-- Days in the years before year `y` (proleptic Gregorian), as
`datetime.date._days_before_year`. -/
def daysBeforeYear (y : Nat) : Nat :=
  let n := y - 1
  n * 365 + n / 4 - n / 100 + n / 400

/-- Days in the months of year `y` strictly before month `m`. -/
def daysBeforeMonth (y m : Nat) : Nat :=
  (match m with
   | 1 => 0 | 2 => 31 | 3 => 59 | 4 => 90 | 5 => 120 | 6 => 151
   | 7 => 181 | 8 => 212 | 9 => 243 | 10 => 273 | 11 => 304 | 12 => 334
   | _ => 0) +
  (if 3 ≤ m && m ≤ 12 && isLeapYear y then 1 else 0)

/-- `date.toordinal()`: day number with 0001-01-01 as day 1. -/
def Date.toOrdinal (d : Date) : Nat :=
  daysBeforeYear d.year + daysBeforeMonth d.year d.month + d.day

/-- `date.strftime("%A")`: weekday name; ordinal 1 (0001-01-01) is a
Monday. -/
def dayNameOfOrdinal (ord : Nat) : String :=
  match (ord + 6) % 7 with
  | 0 => "Monday"
  | 1 => "Tuesday"
  | 2 => "Wednesday"
  | 3 => "Thursday"
  | 4 => "Friday"
  | 5 => "Saturday"
  | _ => "Sunday"

/-- `date.replace(year=y)`: rebuilds the date, revalidating it — raises
`ValueError` when the day is out of range for the month in the new year
(for instance Feb 29 moved to a non-leap year) or the year leaves
1-9999. -/
def Date.replace_year (d : Date) (y : Nat) : Except PyErr Date :=
  if decide (1 ≤ y ∧ y ≤ 9999 ∧ 1 ≤ d.day ∧ d.day ≤ daysInMonth y d.month) then
    .ok ⟨y, d.month, d.day⟩
  else .error (.valueError "day is out of range for month")

/-- Loop body of `get_birthdays_per_week` for one record (task.py lines
81-100): the `(weekday, name)` pair appended for the record, `none` when
the record is skipped by `continue` or the window test, `.error` when the
body raises.  `birthdayValueDate` raises on every record (line 82), so
the remainder of the body — embedded in full below — is unreachable. -/
def processUser (today : Date) (r : Record) : Except PyErr (Option (String × String)) := do
  let name := r.name
  let birthday ← birthdayValueDate r.birthday
  let birthdayThisYear ← birthday.replace_year today.year
  let birthdayThisYear ←
    if birthdayThisYear.toOrdinal < today.toOrdinal then
      birthday.replace_year (today.year + 1)
    else pure birthdayThisYear
  let deltaDays : Int := (birthdayThisYear.toOrdinal : Int) - (today.toOrdinal : Int)
  if deltaDays < 0 then
    return none
  let dayOfWeek := dayNameOfOrdinal ((today.toOrdinal : Int) + deltaDays).toNat
  let sd := if dayOfWeek = "Saturday" || dayOfWeek = "Sunday" then
              ((deltaDays + 1 : Int), "Monday")
            else (deltaDays, dayOfWeek)
  if 0 ≤ sd.1 && sd.1 < 7 then
    return some (sd.2, name)
  else
    return none

/-- `defaultdict(list)` + `birthdays_by_day[day].append(name)`: group
entries by day, first-occurrence key order, appending within a key. -/
def groupAppend (groups : List (String × List String)) (day name : String) :
    List (String × List String) :=
  if groups.any (fun p => p.1 = day) then
    groups.map (fun p => if p.1 = day then (p.1, p.2 ++ [name]) else p)
  else groups ++ [(day, [name])]

/-- `AddressBook.get_birthdays_per_week` (task.py lines 75-103), with
`datetime.today().date()` passed as the `today` parameter.  The result is
the printed grouping, day by day in first-occurrence order; `.error` when
the loop body raises (which it does on every record, see
`birthdayValueDate`). -/
def AddressBook.get_birthdays_per_week (b : AddressBook) (today : Date) :
    Except PyErr (List (String × List String)) :=
  b.data.foldlM (fun groups p => do
    match ← processUser today p.2 with
    | some dn => pure (groupAppend groups dn.1 dn.2)
    | none => pure groups) []

/-- JSON values as produced by `json.load` (objects keep key order;
`json.load` collapses duplicate keys, so well-formed inputs have distinct
keys, though the type does not enforce it). -/
inductive Json where
  | null
  | bool (b : Bool)
  | num (n : Int)
  | str (s : String)
  | arr (xs : List Json)
  | obj (kvs : List (String × Json))

/-- `record.__str__` of a `Phone`/`Birthday` field returns its stored
string, so `str(phone)` is the phone's value and `str(record.birthday)`
the birthday's value.  `AddressBook.save_to_file` (task.py lines 105-114)
builds, per record, `{"phones": [...], "birthday": value-or-null}`. -/
def Record.toJson (r : Record) : Json :=
  .obj [("phones", .arr (r.phones.map Json.str)),
        ("birthday", match r.birthday with
                     | some s => .str s
                     | none => .null)]

/-- `AddressBook.save_to_file` as a JSON value: the document written by
`json.dump` (`{"records": {name: record-body}}`, names in dict order). -/
def AddressBook.save_to_file (b : AddressBook) : Json :=
  .obj [("records", .obj (b.data.map (fun p => (p.1, p.2.toJson))))]

/-- Python subscript `j[k]` with a string key on a parsed JSON value:
`KeyError` on a dict without the key, `TypeError` on anything else. -/
def jsonGetItem (j : Json) (k : String) : Except PyErr Json :=
  match j with
  | .obj kvs =>
    match kvs.find? (fun p => p.1 = k) with
    | some p => .ok p.2
    | none => .error (.keyError k)
  | .arr _ => .error (.typeError "list indices must be integers or slices, not str")
  | _ => .error (.typeError "object is not subscriptable")

/-- Python `.items()` on a parsed JSON value: the key-value pairs of a
dict, `AttributeError` on anything else. -/
def jsonItems (j : Json) : Except PyErr (List (String × Json)) :=
  match j with
  | .obj kvs => .ok kvs
  | _ => .error (.attributeError "object has no attribute items")

/-- Python `for x in j` on a parsed JSON value: the elements of a list,
the one-character strings of a string, the keys of a dict; `TypeError`
otherwise. -/
def jsonIterList (j : Json) : Except PyErr (List Json) :=
  match j with
  | .arr xs => .ok xs
  | .str s => .ok (s.data.map (fun c => Json.str (String.mk [c])))
  | .obj kvs => .ok (kvs.map (fun p => Json.str p.1))
  | _ => .error (.typeError "object is not iterable")

/-- Python truthiness of a parsed JSON value (`if record_data["birthday"]:`). -/
def jsonTruthy (j : Json) : Bool :=
  match j with
  | .null => false
  | .bool b => b
  | .num n => n != 0
  | .str s => !s.data.isEmpty
  | .arr xs => !xs.isEmpty
  | .obj kvs => !kvs.isEmpty

/-- `record.add_phone(phone_str)` where `phone_str` is a parsed JSON
element: `Phone.__init__` rejects any non-`str` via its `isinstance`
check with the same `ValueError`. -/
def addPhoneObj (r : Record) (el : Json) : Except PyErr Record :=
  match el with
  | .str s => r.add_phone s
  | _ => .error (.valueError "Invalid phone number format.")

/-- `record.add_birthday(record_data["birthday"])` where the argument is a
parsed JSON value: the duplicate check fires first; then
`datetime.strptime` raises `TypeError` on a non-`str` argument. -/
def addBirthdayObj (r : Record) (el : Json) : Except PyErr Record :=
  if r.birthday.isSome then
    .error (.valueError "A contact can have one birthday at most.")
  else
    match el with
    | .str s => do
      let b ← Birthday.mk? s
      .ok { r with birthday := some b.value }
    | _ => .error (.typeError "strptime argument 1 must be str")

/-- Reconstruction of one record inside the `load_from_file` loop
(task.py lines 123-127): `Record(name)`, every phone re-added through the
validating `add_phone`, then the birthday re-added when truthy. -/
def loadRecord (name : String) (recordData : Json) : Except PyErr Record := do
  let r := Record.new name
  let phonesJ ← jsonGetItem recordData "phones"
  let phoneEls ← jsonIterList phonesJ
  let r ← phoneEls.foldlM addPhoneObj r
  let bJ ← jsonGetItem recordData "birthday"
  if jsonTruthy bJ then addBirthdayObj r bJ else pure r

/-- How `load_from_file` finishes: normally, by printing
`"Error loading data from file."` (the caught `FileNotFoundError` /
`JSONDecodeError` path, `LoadFailed` in the spec), or by an exception
escaping uncaught. -/
inductive LoadOutcome where
  | success
  | reported
  | raised (e : PyErr)
deriving DecidableEq, Repr

/-- The `load_from_file` loop (lines 122-128) over the remaining
`data["records"].items()` entries, given the records rebuilt so far: on an
exception the dict keeps the partially rebuilt state. -/
def loadRecordsLoop (acc : List (String × Record)) :
    List (String × Json) → List (String × Record) × LoadOutcome
  | [] => (acc, .success)
  | (name, recordData) :: rest =>
    match loadRecord name recordData with
    | .ok rec => loadRecordsLoop (dictInsert acc name rec) rest
    | .error e => (acc, .raised e)

/-- The file handed to `load_from_file`: `none` models
`FileNotFoundError` from `open`, `some (.error ())` content on which
`json.load` raises `JSONDecodeError`, `some (.ok j)` content parsing to
the JSON value `j`. -/
def FileData := Option (Except Unit Json)

/-- `AddressBook.load_from_file` (task.py lines 116-131).  Only
`FileNotFoundError` and `JSONDecodeError` are caught (both arise before
`self.data = {}`, so the book is untouched and the error is reported).
After a successful parse the book is cleared first; any exception from
`data["records"]`, `.items()` or the rebuild loop escapes uncaught,
leaving the cleared, partially repopulated dict behind. -/
def AddressBook.load_from_file (b : AddressBook) (f : FileData) :
    AddressBook × LoadOutcome :=
  match f with
  | none => (b, .reported)
  | some (.error _) => (b, .reported)
  | some (.ok j) =>
    match jsonGetItem j "records" with
    | .error e => (⟨[]⟩, .raised e)
    | .ok recordsJ =>
      match jsonItems recordsJ with
      | .error e => (⟨[]⟩, .raised e)
      | .ok items =>
        let r := loadRecordsLoop [] items
        (⟨r.1⟩, r.2)

/-- Spec-side formulation of the (amended) birthday-validity condition of
claim C4, stated shape- and value-wise from the spec's words rather than
from the `strptime` regex: the string is day-month-year with `'-'`
separators; the day is one or two ASCII digits (zero-padding optional),
or an ASCII `1` or `2` followed by any Unicode decimal digit (the tens
forms, where the pattern's `\d` is Unicode-wide), or a space followed by
a nonzero ASCII digit (space-padding); the month is one or two ASCII
digits; the year is exactly four Unicode decimal digits of any scripts;
and the numeric values (each digit contributing its decimal value)
denote a real calendar date under the standard leap-year rules with year
at least 1.  Compared against the code-side `Birthday.mk?` in
`birthday_mk_isOk_iff`. -/
def specValidDMY (s : String) : Prop :=
  match splitOnDash s.data with
  | [d, m, y] =>
    ((d.all isAsciiDigit = true ∧ 1 ≤ d.length ∧ d.length ≤ 2) ∨
     (∃ c1 c2, d = [c1, c2] ∧ (c1.toNat = 49 ∨ c1.toNat = 50) ∧
       isNdDigit c2 = true) ∨
     (∃ c, d = [' ', c] ∧ 49 ≤ c.toNat ∧ c.toNat ≤ 57)) ∧
    m.all isAsciiDigit = true ∧ 1 ≤ m.length ∧ m.length ≤ 2 ∧
    y.all isNdDigit = true ∧ y.length = 4 ∧
    1 ≤ digitsToNat y ∧ 1 ≤ digitsToNat m ∧ digitsToNat m ≤ 12 ∧
    1 ≤ digitsToNat d ∧
    digitsToNat d ≤ daysInMonth (digitsToNat y) (digitsToNat m)
  | _ => False

/-- Auxiliary: mapping a value-swap function over a list without the old
value is the identity. -/
theorem map_swap_not_mem (oldPhone newPhone : String) :
    ∀ l : List String, oldPhone ∉ l →
      l.map (fun v => if v = oldPhone then newPhone else v) = l := by
  intro l
  induction l with
  | nil => intro _; rfl
  | cons a t ih =>
    intro hl
    have ha : a ≠ oldPhone := fun e => hl (e ▸ List.mem_cons_self a t)
    simp only [List.map_cons, if_neg ha, ih (fun hm => hl (List.mem_cons_of_mem a hm))]

/-- Auxiliary: a failed phone validation is exactly the
`"Invalid phone number format."` `ValueError`. -/
theorem phone_mk_error (s : String) (h : (Phone.mk? s).isOk = false) :
    Phone.mk? s = .error (.valueError "Invalid phone number format.") := by
  unfold Phone.mk? at h ⊢
  split at h
  case isTrue hc => rw [if_pos hc]
  case isFalse hc => exact Bool.noConfusion h

/-- Auxiliary: a successful phone validation stores the string unchanged. -/
theorem phone_mk_ok (s : String) (h : (Phone.mk? s).isOk = true) :
    Phone.mk? s = .ok ⟨s⟩ := by
  unfold Phone.mk? at h ⊢
  split at h
  case isTrue hc => exact Bool.noConfusion h
  case isFalse hc => rw [if_neg hc]

/-- Claim C1 (code evaluation at the failing input): the weekly-birthdays
report does not skip a record without a birthday — on a book holding the
single record `"Ann"` with no birthday it raises `AttributeError`
(`user.birthday.value` with `birthday = None`, task.py line 82) instead of
completing. -/
theorem get_birthdays_per_week_raises_on_missing_birthday :
    AddressBook.get_birthdays_per_week ⟨[("Ann", Record.new "Ann")]⟩ ⟨2024, 6, 10⟩ =
      .error (.attributeError "NoneType object has no attribute value") := rfl

/-- Claim C6 (code evaluation at the failing input): the weekend-shift
rule never executes.  `"15-06-1990"` is accepted as Ann's birthday, and on
`today = 2024-06-10` (the spec's own scenario, occurrence Saturday
2024-06-15) the report raises `AttributeError` at
`user.birthday.value.date()` (a `str` has no `date`, task.py line 82)
before any weekday is computed, instead of reporting Ann under
`"Monday"`. -/
theorem get_birthdays_per_week_raises_before_weekend_shift :
    Record.add_birthday (Record.new "Ann") "15-06-1990" =
      .ok ⟨"Ann", [], some "15-06-1990"⟩ ∧
    AddressBook.get_birthdays_per_week ⟨[("Ann", ⟨"Ann", [], some "15-06-1990"⟩)]⟩
        ⟨2024, 6, 10⟩ =
      .error (.attributeError "str object has no attribute date") :=
  ⟨rfl, rfl⟩

/-- Claim C5: on a record that already has a birthday, `add_birthday`
fails with the duplicate-birthday `ValueError` for every second value,
well-formed or not (the duplicate check precedes validation, task.py
lines 47-50), and the record is unchanged (the error result carries no
updated record). -/
theorem add_birthday_duplicate_always_fails (r : Record) (date : String)
    (h : r.birthday.isSome = true) :
    r.add_birthday date =
      .error (.valueError "A contact can have one birthday at most.") := by
  unfold Record.add_birthday
  simp [h]

/-- Witness for C5 at a concrete record and a malformed second value. -/
theorem add_birthday_duplicate_always_fails_witness :
    (Record.mk "Ann" [] (some "15-06-1990")).birthday.isSome = true ∧
    Record.add_birthday ⟨"Ann", [], some "15-06-1990"⟩ "not-a-date" =
      .error (.valueError "A contact can have one birthday at most.") :=
  ⟨rfl, add_birthday_duplicate_always_fails ⟨"Ann", [], some "15-06-1990"⟩ "not-a-date" rfl⟩

/-- Claim C7: `edit_phone old new` replaces the value of every phone equal
to `old` with the raw string `new` (no re-validation — `new` is arbitrary),
leaves name and birthday untouched, and is a no-op (not an error) when no
phone equals `old`. -/
theorem edit_phone_characterization (r : Record) (oldPhone newPhone : String) :
    (r.edit_phone oldPhone newPhone).phones =
      r.phones.map (fun v => if v = oldPhone then newPhone else v) ∧
    (r.edit_phone oldPhone newPhone).name = r.name ∧
    (r.edit_phone oldPhone newPhone).birthday = r.birthday ∧
    (oldPhone ∉ r.phones → r.edit_phone oldPhone newPhone = r) := by
  refine ⟨rfl, rfl, rfl, fun h => ?_⟩
  simp [Record.edit_phone, map_swap_not_mem oldPhone newPhone r.phones h]

/-- Witness for C7: editing `"0123456789"` to the invalid string `"xyz"`
succeeds and substitutes the raw value. -/
theorem edit_phone_characterization_witness :
    (Record.edit_phone ⟨"Ann", ["0123456789"], none⟩ "0123456789" "xyz").phones =
      (["0123456789"].map (fun v => if v = "0123456789" then "xyz" else v)) ∧
    (Record.edit_phone ⟨"Ann", ["0123456789"], none⟩ "0123456789" "xyz").name = "Ann" ∧
    (Record.edit_phone ⟨"Ann", ["0123456789"], none⟩ "0123456789" "xyz").birthday = none ∧
    ("0123456789" ∉ ["0123456789"] →
      Record.edit_phone ⟨"Ann", ["0123456789"], none⟩ "0123456789" "xyz" =
        ⟨"Ann", ["0123456789"], none⟩) :=
  edit_phone_characterization ⟨"Ann", ["0123456789"], none⟩ "0123456789" "xyz"

/-- Claim C8: loading from a missing file or from content that is not
valid JSON reports the failure (`LoadFailed`, the printed message) without
raising, and leaves the book's records exactly as they were (both errors
arise before `self.data = {}`, task.py lines 117-121, 130-131). -/
theorem load_missing_or_invalid_reports_and_preserves (b : AddressBook) (f : FileData)
    (h : f = none ∨ f = some (.error ())) :
    b.load_from_file f = (b, .reported) := by
  rcases h with h | h <;> subst h <;> rfl

/-- Witness for C8 on a nonempty book and a missing file. -/
theorem load_missing_or_invalid_reports_and_preserves_witness :
    ((none : FileData) = none ∨ (none : FileData) = some (.error ())) ∧
    AddressBook.load_from_file ⟨[("Ann", ⟨"Ann", ["0123456789"], none⟩)]⟩ none =
      (⟨[("Ann", ⟨"Ann", ["0123456789"], none⟩)]⟩, .reported) :=
  ⟨Or.inl rfl,
   load_missing_or_invalid_reports_and_preserves
     ⟨[("Ann", ⟨"Ann", ["0123456789"], none⟩)]⟩ none (Or.inl rfl)⟩

/-- Claim C9: `add_phone` on a string that fails phone validation raises
the `InvalidFormat` `ValueError`; the `Phone` constructor runs before the
append (task.py lines 35-37), so the error result carries no record and
the phone list is unchanged. -/
theorem add_phone_invalid_raises_no_mutation (r : Record) (s : String)
    (h : (Phone.mk? s).isOk = false) :
    r.add_phone s = .error (.valueError "Invalid phone number format.") := by
  unfold Record.add_phone
  rw [phone_mk_error s h]
  rfl

/-- Witness for C9 at a concrete record and the invalid phone `"123"`. -/
theorem add_phone_invalid_raises_no_mutation_witness :
    (Phone.mk? "123").isOk = false ∧
    Record.add_phone (Record.new "Ann") "123" =
      .error (.valueError "Invalid phone number format.") :=
  ⟨rfl, add_phone_invalid_raises_no_mutation (Record.new "Ann") "123" rfl⟩

/-- Claim C3, counterexample: phone validation is not restricted to ASCII
digits — the 10-character string of superscript-two characters passes
(CPython `str.isdigit` accepts Unicode digits), although none of its
characters is an ASCII digit, so "succeeds if and only if composed solely
of ASCII digits" fails as stated. -/
theorem phone_ascii_claim_counterexample :
    (Phone.mk? "²²²²²²²²²²").isOk = true ∧
    "²²²²²²²²²²".data.all isAsciiDigit = false := by decide

/-- Claim C4, counterexample: birthday validation does not require the
zero-padded `DD-MM-YYYY` shape — `"1-1-2024"` (8 characters, while every
zero-padded `DD-MM-YYYY` string has 10) is accepted, because the CPython
`strptime` patterns for `%d` and `%m` also match single digits. -/
theorem birthday_zero_padding_counterexample :
    (Birthday.mk? "1-1-2024").isOk = true ∧ "1-1-2024".data.length ≠ 10 := by decide

set_option maxRecDepth 8000 in
/-- Auxiliary: below code point 128 the Python digit table accepts exactly
the ASCII digits (checked range by range). -/
theorem pyIsDigit_ascii_aux :
    ∀ n < 128, pyDigitRanges.any (fun p => decide (p.1 ≤ n ∧ n ≤ p.2)) =
      decide (48 ≤ n ∧ n ≤ 57) := by decide

/-- Auxiliary: on ASCII characters `str.isdigit` agrees with the
ASCII-digit test. -/
theorem pyIsDigit_ascii (c : Char) (h : c.toNat < 128) :
    pyIsDigitChar c = isAsciiDigit c :=
  pyIsDigit_ascii_aux c.toNat h

/-- Auxiliary: on all-ASCII character lists the two digit tests agree
elementwise, hence so do the list-level tests. -/
theorem all_pyDigit_eq_all_ascii :
    ∀ l : List Char, (∀ c ∈ l, c.toNat < 128) →
      l.all pyIsDigitChar = l.all isAsciiDigit := by
  intro l
  induction l with
  | nil => intro _; rfl
  | cons a t ih =>
    intro hl
    simp only [List.all_cons]
    rw [pyIsDigit_ascii a (hl a (List.mem_cons_self a t)),
        ih (fun c hc => hl c (List.mem_cons_of_mem a hc))]

/-- Auxiliary: success condition of phone validation, in terms of the
embedded Python digit test. -/
theorem phone_mk_isOk_iff (s : String) :
    (Phone.mk? s).isOk = true ↔
      (s.data ≠ [] ∧ s.data.all pyIsDigitChar = true ∧ s.data.length = 10) := by
  unfold Phone.mk? pyStrIsDigit
  split
  case isTrue hc =>
    simp only [Bool.or_eq_true, Bool.not_eq_true', Bool.and_eq_false_iff,
      Bool.not_eq_false', bne_iff_ne, ne_eq, List.isEmpty_iff] at hc
    constructor
    · intro hco; exact Bool.noConfusion hco
    · rintro ⟨h1, h2, h3⟩
      rcases hc with (hc | hc) | hc
      · exact absurd hc h1
      · rw [h2] at hc; exact Bool.noConfusion hc
      · exact absurd h3 hc
  case isFalse hc =>
    simp only [Bool.not_eq_true, Bool.or_eq_false_iff, Bool.not_eq_false',
      Bool.and_eq_true, Bool.not_eq_true', bne_eq_false_iff_eq] at hc
    obtain ⟨⟨hemp, hall⟩, hlen⟩ := hc
    constructor
    · intro _
      refine ⟨?_, hall, hlen⟩
      intro he
      rw [he] at hemp
      exact Bool.noConfusion hemp
    · intro _; rfl

/-- Claim C3, amended: for strings of ASCII characters, phone validation
succeeds iff the string has exactly 10 characters, all ASCII digits, and
then stores the string unchanged; every failure is the `InvalidFormat`
`ValueError`.  (The ASCII restriction cannot be dropped: see
`phone_ascii_claim_counterexample`.) -/
theorem phone_validation_ascii_characterization (s : String)
    (h : ∀ c ∈ s.data, c.toNat < 128) :
    ((Phone.mk? s).isOk = true ↔
      (s.data.length = 10 ∧ s.data.all isAsciiDigit = true)) ∧
    (∀ p, Phone.mk? s = .ok p → p.value = s) ∧
    ((Phone.mk? s).isOk = false →
      Phone.mk? s = .error (.valueError "Invalid phone number format.")) := by
  refine ⟨?_, ?_, phone_mk_error s⟩
  · rw [phone_mk_isOk_iff s, all_pyDigit_eq_all_ascii s.data h]
    constructor
    · rintro ⟨_, h2, h3⟩; exact ⟨h3, h2⟩
    · rintro ⟨h3, h2⟩
      refine ⟨?_, h2, h3⟩
      intro he
      rw [he] at h3
      exact absurd h3 (by decide)
  · intro p hp
    have hok : (Phone.mk? s).isOk = true := by rw [hp]; rfl
    have hval := phone_mk_ok s hok
    rw [hp] at hval
    injection hval with hv
    rw [hv]

/-- Witness for the amended C3 at the all-ASCII string `"0123456789"`. -/
theorem phone_validation_ascii_characterization_witness :
    (∀ c ∈ "0123456789".data, c.toNat < 128) ∧
    (((Phone.mk? "0123456789").isOk = true ↔
      ("0123456789".data.length = 10 ∧ "0123456789".data.all isAsciiDigit = true)) ∧
    (∀ p, Phone.mk? "0123456789" = .ok p → p.value = "0123456789") ∧
    ((Phone.mk? "0123456789").isOk = false →
      Phone.mk? "0123456789" = .error (.valueError "Invalid phone number format."))) :=
  ⟨by decide, phone_validation_ascii_characterization "0123456789" (by decide)⟩

/-- Auxiliary: every decimal-digit value is at most 9 (and a non-digit
contributes 0). -/
theorem ndDigitVal_le_nine (c : Char) : ndDigitVal c ≤ 9 := by
  unfold ndDigitVal
  cases hf : ndDigitStarts.find? (fun lo => decide (lo ≤ c.toNat ∧ c.toNat ≤ lo + 9)) with
  | none => exact Nat.zero_le 9
  | some lo =>
    have hb := List.find?_some hf
    rw [decide_eq_true_eq] at hb
    show c.toNat - lo ≤ 9
    omega

/-- Auxiliary: the ASCII digits form the first block of the table, so
their decimal value is code point minus 48. -/
theorem ndDigitVal_ascii (c : Char) (h1 : 48 ≤ c.toNat) (h2 : c.toNat ≤ 57) :
    ndDigitVal c = c.toNat - 48 := by
  have hp : (fun lo => decide (lo ≤ c.toNat ∧ c.toNat ≤ lo + 9)) 48 = true :=
    decide_eq_true (by omega)
  have hfind : ndDigitStarts.find?
      (fun lo => decide (lo ≤ c.toNat ∧ c.toNat ≤ lo + 9)) = some 48 :=
    List.find?_cons_of_pos _ hp
  unfold ndDigitVal
  rw [hfind]

/-- Auxiliary: an ASCII digit is a Unicode decimal digit. -/
theorem isNdDigit_of_ascii (c : Char) (h1 : 48 ≤ c.toNat) (h2 : c.toNat ≤ 57) :
    isNdDigit c = true := by
  unfold isNdDigit
  rw [List.any_eq_true]
  exact ⟨48, by decide, decide_eq_true (by omega)⟩

/-- Auxiliary: the `%d` regex accepts exactly the one/two-ASCII-digit
tokens with value 1..31, the tens tokens whose ones place is any Unicode
decimal digit, and the space-padded tokens (space then a nonzero ASCII
digit). -/
theorem match_day_iff (t : List Char) :
    matchDayToken t = true ↔
      (((t.all isAsciiDigit = true ∧ 1 ≤ t.length ∧ t.length ≤ 2) ∨
        (∃ c1 c2, t = [c1, c2] ∧ (c1.toNat = 49 ∨ c1.toNat = 50) ∧
          isNdDigit c2 = true) ∨
        (∃ c, t = [' ', c] ∧ 49 ≤ c.toNat ∧ c.toNat ≤ 57)) ∧
       1 ≤ digitsToNat t ∧ digitsToNat t ≤ 31) := by
  match t with
  | [] =>
    constructor
    · intro h; exact Bool.noConfusion h
    · rintro ⟨⟨-, h1, -⟩ | ⟨c1, c2, hc, -⟩ | ⟨c, hc, -⟩, -⟩
      · exact absurd h1 (by simp)
      · exact List.noConfusion hc
      · exact List.noConfusion hc
  | [c] =>
    simp only [matchDayToken, digitsToNat, List.foldl_cons, List.foldl_nil,
      List.all_cons, List.all_nil, Bool.and_true, isAsciiDigit,
      decide_eq_true_eq, List.length_cons, List.length_nil]
    constructor
    · intro h
      have e := ndDigitVal_ascii c (by omega) (by omega)
      exact ⟨Or.inl (by omega), by omega, by omega⟩
    · rintro ⟨h | ⟨c1, c2, hc, -⟩ | ⟨c2, hc, -⟩, hb1, hb2⟩
      · have e := ndDigitVal_ascii c (by omega) (by omega)
        omega
      · injection hc with h_ hr
        exact List.noConfusion hr
      · injection hc with h_ hr
        exact List.noConfusion hr
  | [c1, c2] =>
    simp only [matchDayToken, digitsToNat, List.foldl_cons, List.foldl_nil,
      List.all_cons, List.all_nil, Bool.and_true, Bool.and_eq_true,
      isAsciiDigit, decide_eq_true_eq, List.length_cons, List.length_nil]
    have h32 : (' ' : Char).toNat = 32 := rfl
    have hn2 := ndDigitVal_le_nine c2
    constructor
    · rintro (h | h | h | h)
      · have e1 := ndDigitVal_ascii c1 (by omega) (by omega)
        have e2 := ndDigitVal_ascii c2 (by omega) (by omega)
        exact ⟨Or.inl (by omega), by omega, by omega⟩
      · obtain ⟨h1, h2⟩ := h
        have e1 : ndDigitVal c1 = c1.toNat - 48 :=
          ndDigitVal_ascii c1 (by omega) (by omega)
        refine ⟨Or.inr (Or.inl ⟨c1, c2, rfl, h1, h2⟩), by omega, by omega⟩
      · have e1 := ndDigitVal_ascii c1 (by omega) (by omega)
        have e2 := ndDigitVal_ascii c2 (by omega) (by omega)
        exact ⟨Or.inl (by omega), by omega, by omega⟩
      · obtain ⟨hsp, hb1, hb2⟩ := h
        subst hsp
        have e1 : ndDigitVal ' ' = 0 := rfl
        have e2 := ndDigitVal_ascii c2 (by omega) (by omega)
        exact ⟨Or.inr (Or.inr ⟨c2, rfl, hb1, hb2⟩), by omega, by omega⟩
    · rintro ⟨h | ⟨a, b, hc, ha, hb⟩ | ⟨c, hc, hb1, hb2⟩, hv1, hv31⟩
      · have e1 := ndDigitVal_ascii c1 (by omega) (by omega)
        have e2 := ndDigitVal_ascii c2 (by omega) (by omega)
        have h3 : (c1.toNat = 51 ∧ (c2.toNat = 48 ∨ c2.toNat = 49)) ∨
            ((c1.toNat = 49 ∨ c1.toNat = 50) ∧ 48 ≤ c2.toNat ∧ c2.toNat ≤ 57) ∨
            (c1.toNat = 48 ∧ 49 ≤ c2.toNat ∧ c2.toNat ≤ 57) := by omega
        rcases h3 with h3 | h3 | h3
        · exact Or.inl h3
        · exact Or.inr (Or.inl ⟨h3.1, isNdDigit_of_ascii c2 h3.2.1 h3.2.2⟩)
        · exact Or.inr (Or.inr (Or.inl h3))
      · injection hc with hc1 hcrest
        injection hcrest with hc2 hcnil
        subst hc1
        subst hc2
        exact Or.inr (Or.inl ⟨ha, hb⟩)
      · injection hc with hc1 hcrest
        injection hcrest with hc2 hcnil
        subst hc1
        subst hc2
        exact Or.inr (Or.inr (Or.inr ⟨rfl, hb1, hb2⟩))
  | c1 :: c2 :: c3 :: rest =>
    constructor
    · intro h; exact Bool.noConfusion h
    · rintro ⟨⟨-, -, h2⟩ | ⟨a, b, hc, -⟩ | ⟨c, hc, -⟩, -⟩
      · exact absurd h2 (by simp only [List.length_cons]; omega)
      · injection hc with h_ hcrest
        injection hcrest with h_2 hcnil
        exact List.noConfusion hcnil
      · injection hc with h_ hcrest
        injection hcrest with h_2 hcnil
        exact List.noConfusion hcnil

/-- Auxiliary: the `%m` regex accepts exactly the one/two-ASCII-digit
tokens with value 1..12. -/
theorem match_month_iff (t : List Char) :
    matchMonthToken t = true ↔
      (t.all isAsciiDigit = true ∧ 1 ≤ t.length ∧ t.length ≤ 2 ∧
       1 ≤ digitsToNat t ∧ digitsToNat t ≤ 12) := by
  match t with
  | [] =>
    constructor
    · intro h; exact Bool.noConfusion h
    · rintro ⟨-, h1, -⟩
      exact absurd h1 (by simp)
  | [c] =>
    simp only [matchMonthToken, digitsToNat, List.foldl_cons, List.foldl_nil,
      List.all_cons, List.all_nil, Bool.and_true, isAsciiDigit,
      decide_eq_true_eq, List.length_cons, List.length_nil]
    constructor
    · intro h
      have e := ndDigitVal_ascii c (by omega) (by omega)
      omega
    · intro h
      have e := ndDigitVal_ascii c (by omega) (by omega)
      omega
  | [c1, c2] =>
    simp only [matchMonthToken, digitsToNat, List.foldl_cons, List.foldl_nil,
      List.all_cons, List.all_nil, Bool.and_true, Bool.and_eq_true,
      isAsciiDigit, decide_eq_true_eq, List.length_cons, List.length_nil]
    constructor
    · rintro (h | h)
      · have e1 := ndDigitVal_ascii c1 (by omega) (by omega)
        have e2 := ndDigitVal_ascii c2 (by omega) (by omega)
        omega
      · have e1 := ndDigitVal_ascii c1 (by omega) (by omega)
        have e2 := ndDigitVal_ascii c2 (by omega) (by omega)
        omega
    · intro h
      have e1 := ndDigitVal_ascii c1 (by omega) (by omega)
      have e2 := ndDigitVal_ascii c2 (by omega) (by omega)
      omega
  | c1 :: c2 :: c3 :: rest =>
    constructor
    · intro h; exact Bool.noConfusion h
    · rintro ⟨-, -, h2, -⟩
      exact absurd h2 (by simp only [List.length_cons]; omega)

/-- Auxiliary: the `%Y` regex accepts exactly the four-Unicode-decimal-
digit tokens. -/
theorem match_year_iff (t : List Char) :
    matchYearToken t = true ↔ (t.all isNdDigit = true ∧ t.length = 4) := by
  unfold matchYearToken
  simp only [Bool.and_eq_true, decide_eq_true_eq]
  tauto

/-- Auxiliary: a four-digit token has value at most 9999 (each digit
value is at most 9). -/
theorem digits4_le_9999 (t : List Char) (hl : t.length = 4) :
    digitsToNat t ≤ 9999 := by
  match t with
  | [] => simp at hl
  | [a] => simp at hl
  | [a, b] => simp at hl
  | [a, b, c] => simp at hl
  | a :: b :: c :: d :: rest =>
    have hr : rest = [] := by
      simp only [List.length_cons] at hl
      exact List.eq_nil_of_length_eq_zero (by omega)
    subst hr
    have n1 := ndDigitVal_le_nine a
    have n2 := ndDigitVal_le_nine b
    have n3 := ndDigitVal_le_nine c
    have n4 := ndDigitVal_le_nine d
    simp only [digitsToNat, List.foldl_cons, List.foldl_nil]
    omega

/-- Auxiliary: no month has more than 31 days. -/
theorem daysInMonth_le_31 (y m : Nat) : daysInMonth y m ≤ 31 := by
  unfold daysInMonth
  split <;> first | omega | (split <;> omega)

/-- Auxiliary: birthday validation succeeds exactly on the spec-side
condition `specValidDMY` (regex token classes against numeric ranges). -/
theorem birthday_mk_isOk_iff (s : String) :
    (Birthday.mk? s).isOk = true ↔ specValidDMY s := by
  unfold Birthday.mk? strptimeDMY specValidDMY
  rcases hsp : splitOnDash s.data with _ | ⟨d, _ | ⟨m, _ | ⟨y, _ | ⟨z, zs⟩⟩⟩⟩
  · exact ⟨fun h => Bool.noConfusion h, False.elim⟩
  · exact ⟨fun h => Bool.noConfusion h, False.elim⟩
  · exact ⟨fun h => Bool.noConfusion h, False.elim⟩
  · -- the [d, m, y] case
    dsimp only
    by_cases hA : (matchDayToken d && matchMonthToken m && matchYearToken y) = true
    · rw [if_pos hA]
      rw [Bool.and_eq_true, Bool.and_eq_true] at hA
      obtain ⟨⟨hAd, hAm⟩, hAy⟩ := hA
      obtain ⟨hdsh, hd4, hd5⟩ := (match_day_iff d).mp hAd
      obtain ⟨hm1, hm2, hm3, hm4, hm5⟩ := (match_month_iff m).mp hAm
      obtain ⟨hy1, hy2⟩ := (match_year_iff y).mp hAy
      by_cases hB : (1 ≤ digitsToNat y ∧ digitsToNat y ≤ 9999 ∧
          1 ≤ digitsToNat m ∧ digitsToNat m ≤ 12 ∧ 1 ≤ digitsToNat d ∧
          digitsToNat d ≤ daysInMonth (digitsToNat y) (digitsToNat m))
      · rw [if_pos (decide_eq_true hB)]
        constructor
        · intro _
          exact ⟨hdsh, hm1, hm2, hm3, hy1, hy2,
                 hB.1, hB.2.2.1, hB.2.2.2.1, hB.2.2.2.2.1, hB.2.2.2.2.2⟩
        · intro _; rfl
      · rw [if_neg (fun hc => absurd (of_decide_eq_true hc) hB)]
        constructor
        · intro h; exact Bool.noConfusion h
        · rintro ⟨-, -, -, -, -, -, hv1, hv2, hv3, hv4, hv5⟩
          exact absurd ⟨hv1, digits4_le_9999 y hy2, hv2, hv3, hv4, hv5⟩ hB
    · rw [if_neg hA]
      constructor
      · intro h; exact Bool.noConfusion h
      · rintro ⟨hdsh, hm1, hm2, hm3, hy1, hy2, hv1, hv2, hv3, hv4, hv5⟩
        refine absurd ?_ hA
        rw [Bool.and_eq_true, Bool.and_eq_true]
        refine ⟨⟨(match_day_iff d).mpr ⟨hdsh, hv4, ?_⟩,
                 (match_month_iff m).mpr ⟨hm1, hm2, hm3, hv2, hv3⟩⟩,
                (match_year_iff y).mpr ⟨hy1, hy2⟩⟩
        exact le_trans hv5 (daysInMonth_le_31 (digitsToNat y) (digitsToNat m))
  · exact ⟨fun h => Bool.noConfusion h, False.elim⟩

/-- Auxiliary: a successful birthday validation stores the raw string
unchanged. -/
theorem birthday_mk_ok (s : String) (h : (Birthday.mk? s).isOk = true) :
    Birthday.mk? s = .ok ⟨s⟩ := by
  unfold Birthday.mk? at h ⊢
  rcases hst : strptimeDMY s with _ | d
  · rw [hst] at h; exact Bool.noConfusion h
  · rfl

/-- Auxiliary: a failed birthday validation is exactly the
`"Invalid date format. Use DD-MM-YYYY."` `ValueError`. -/
theorem birthday_mk_error (s : String) (h : (Birthday.mk? s).isOk = false) :
    Birthday.mk? s = .error (.valueError "Invalid date format. Use DD-MM-YYYY.") := by
  unfold Birthday.mk? at h ⊢
  rcases hst : strptimeDMY s with _ | d
  · rfl
  · rw [hst] at h; exact Bool.noConfusion h

/-- Claim C4, amended: birthday validation succeeds iff the string is
day-month-year with `'-'` separators where the day is one or two ASCII
digits (zero-padding optional), or an ASCII `1`/`2` followed by any
Unicode decimal digit (the `%d` pattern's `\d` is Unicode-wide), or a
space followed by a nonzero ASCII digit (space-padding); the month is
one or two ASCII digits (its pattern has no `\d`); the year is exactly
four Unicode decimal digits of any scripts; and the numeric values —
each digit contributing its decimal value — denote a real calendar date
under standard leap-year rules with year at least 1.  The raw string is
stored unchanged on success, and every other string fails with the
`InvalidFormat` `ValueError`.  (Mandatory zero-padding fails on the
code: see `birthday_zero_padding_counterexample`.) -/
theorem birthday_validation_characterization (s : String) :
    ((Birthday.mk? s).isOk = true ↔ specValidDMY s) ∧
    (∀ b, Birthday.mk? s = .ok b → b.value = s) ∧
    ((Birthday.mk? s).isOk = false →
      Birthday.mk? s = .error (.valueError "Invalid date format. Use DD-MM-YYYY.")) := by
  refine ⟨birthday_mk_isOk_iff s, ?_, birthday_mk_error s⟩
  intro b hb
  have hok : (Birthday.mk? s).isOk = true := by rw [hb]; rfl
  have hval := birthday_mk_ok s hok
  rw [hb] at hval
  injection hval with hv
  rw [hv]

/-- Witness for the amended C4 at the valid date string `"01-01-2000"`
and (inside the first conjunct) its spec-side validity. -/
theorem birthday_validation_characterization_witness :
    (((Birthday.mk? "01-01-2000").isOk = true ↔ specValidDMY "01-01-2000") ∧
    (∀ b, Birthday.mk? "01-01-2000" = .ok b → b.value = "01-01-2000") ∧
    ((Birthday.mk? "01-01-2000").isOk = false →
      Birthday.mk? "01-01-2000" =
        .error (.valueError "Invalid date format. Use DD-MM-YYYY."))) :=
  birthday_validation_characterization "01-01-2000"

/-- Auxiliary: subscripting the saved record body by `"phones"`. -/
theorem jsonGetItem_phones (x y : Json) :
    jsonGetItem (Json.obj [("phones", x), ("birthday", y)]) "phones" = .ok x := rfl

/-- Auxiliary: subscripting the saved record body by `"birthday"`. -/
theorem jsonGetItem_birthday (x y : Json) :
    jsonGetItem (Json.obj [("phones", x), ("birthday", y)]) "birthday" = .ok y := rfl

/-- Auxiliary: subscripting the saved document by `"records"`. -/
theorem jsonGetItem_records (x : Json) :
    jsonGetItem (Json.obj [("records", x)]) "records" = .ok x := rfl

/-- Auxiliary: re-adding a list of valid phone strings through the load
loop appends them in order. -/
theorem phones_fold_ok (ps : List String) :
    ∀ r : Record, (∀ v ∈ ps, (Phone.mk? v).isOk = true) →
      List.foldlM addPhoneObj r (ps.map Json.str) =
        .ok { r with phones := r.phones ++ ps } := by
  induction ps with
  | nil =>
    intro r _
    rw [List.map_nil, List.foldlM_nil, List.append_nil]
    rfl
  | cons v vs ih =>
    intro r hv
    have hstep : addPhoneObj r (Json.str v) =
        .ok { r with phones := r.phones ++ [v] } := by
      show r.add_phone v = _
      unfold Record.add_phone
      rw [phone_mk_ok v (hv v (List.mem_cons_self v vs))]
      rfl
    rw [List.map_cons, List.foldlM_cons, hstep]
    simp only [Bind.bind, Except.bind]
    rw [ih _ (fun w hw => hv w (List.mem_cons_of_mem v hw))]
    simp [List.append_assoc]

/-- Auxiliary: a validated birthday string is nonempty (so it is truthy
in the load loop). -/
theorem birthday_ok_data_ne_nil (s : String) (h : (Birthday.mk? s).isOk = true) :
    s.data ≠ [] := by
  intro he
  have hs := (birthday_mk_isOk_iff s).mp h
  unfold specValidDMY at hs
  rw [he] at hs
  exact hs

/-- Auxiliary: reloading the saved JSON body of a record with valid
phones and a valid (or absent) birthday reconstructs its fields. -/
theorem loadRecord_roundtrip (n : String) (r : Record)
    (hph : ∀ v ∈ r.phones, (Phone.mk? v).isOk = true)
    (hbd : Option.all (fun v => (Birthday.mk? v).isOk) r.birthday = true) :
    loadRecord n r.toJson = .ok ⟨n, r.phones, r.birthday⟩ := by
  unfold loadRecord Record.toJson
  rw [jsonGetItem_phones, jsonGetItem_birthday]
  simp only [Bind.bind, Except.bind, jsonIterList]
  rw [phones_fold_ok r.phones (Record.new n) hph]
  cases hb : r.birthday with
  | none => rfl
  | some s =>
    rw [hb] at hbd
    simp only [Option.all_some] at hbd
    dsimp only [Record.new]
    have ht : jsonTruthy (Json.str s) = true := by
      unfold jsonTruthy
      dsimp only
      cases hd : s.data with
      | nil => exact absurd hd (birthday_ok_data_ne_nil s hbd)
      | cons a t => rfl
    rw [if_pos ht]
    unfold addBirthdayObj
    rw [if_neg (by simp)]
    dsimp only
    rw [birthday_mk_ok s hbd]
    rfl

/-- Auxiliary: Python dict assignment with a fresh key appends. -/
theorem dictInsert_not_mem (acc : List (String × Record)) (k : String) (v : Record)
    (h : ∀ q ∈ acc, q.1 ≠ k) : dictInsert acc k v = acc ++ [(k, v)] := by
  unfold dictInsert
  rw [if_neg]
  intro hc
  rw [List.any_eq_true] at hc
  obtain ⟨q, hq, hqk⟩ := hc
  exact h q hq (by rwa [decide_eq_true_eq] at hqk)

/-- Auxiliary: the load loop over saved entries with valid fields and
fresh, pairwise-distinct keys rebuilds them in order. -/
theorem loadRecordsLoop_roundtrip :
    ∀ l acc : List (String × Record),
      (∀ p ∈ l, ∀ v ∈ p.2.phones, (Phone.mk? v).isOk = true) →
      (∀ p ∈ l, Option.all (fun v => (Birthday.mk? v).isOk) p.2.birthday = true) →
      (∀ p ∈ l, p.2.name = p.1) →
      (l.map Prod.fst).Nodup →
      (∀ p ∈ l, ∀ q ∈ acc, q.1 ≠ p.1) →
      loadRecordsLoop acc (l.map (fun p => (p.1, p.2.toJson))) = (acc ++ l, .success) := by
  intro l
  induction l with
  | nil => intro acc _ _ _ _ _; simp [loadRecordsLoop]
  | cons p rest ih =>
    intro acc hph hbd hnm hnd hdisj
    obtain ⟨n, r⟩ := p
    have hmem : (n, r) ∈ (n, r) :: rest := List.mem_cons_self (n, r) rest
    have hload := loadRecord_roundtrip n r (hph (n, r) hmem) (hbd (n, r) hmem)
    have hr : (⟨n, r.phones, r.birthday⟩ : Record) = r := by
      have hn := hnm (n, r) hmem
      cases r
      simp only at hn
      rw [hn]
    rw [hr] at hload
    simp only [List.map_cons]
    unfold loadRecordsLoop
    rw [hload]
    dsimp only
    rw [dictInsert_not_mem acc n r (fun q hq => hdisj (n, r) hmem q hq)]
    simp only [List.map_cons] at hnd
    rw [List.nodup_cons] at hnd
    rw [ih (acc ++ [(n, r)])
          (fun q hq => hph q (List.mem_cons_of_mem _ hq))
          (fun q hq => hbd q (List.mem_cons_of_mem _ hq))
          (fun q hq => hnm q (List.mem_cons_of_mem _ hq))
          hnd.2
          ?_]
    · rw [List.append_assoc]
      rfl
    · intro q hq w hw
      rcases List.mem_append.mp hw with hw | hw
      · exact hdisj q (List.mem_cons_of_mem _ hq) w hw
      · have hwn : w = (n, r) := List.mem_singleton.mp hw
        rw [hwn]
        intro he
        have hn : n = q.1 := he
        exact hnd.1 (by rw [hn]; exact List.mem_map_of_mem Prod.fst hq)

/-- Claim C2: `save_to_file` followed by `load_from_file` of the written
document reproduces the book exactly — same names in the same order, same
phone lists in order, same birthday value or absence.  Besides the
claim's hypothesis that every stored phone value passes validation, the
theorem assumes the data-model invariants of spec §3 (every present
birthday value parses, keys are pairwise distinct and equal each record's
own name), which hold of every book built through the API. -/
theorem save_load_roundtrip (b0 b : AddressBook)
    (hph : ∀ p ∈ b.data, ∀ v ∈ p.2.phones, (Phone.mk? v).isOk = true)
    (hbd : ∀ p ∈ b.data, Option.all (fun v => (Birthday.mk? v).isOk) p.2.birthday = true)
    (hnm : ∀ p ∈ b.data, p.2.name = p.1)
    (hnd : (b.data.map Prod.fst).Nodup) :
    b0.load_from_file (some (.ok b.save_to_file)) = (b, .success) := by
  unfold AddressBook.load_from_file AddressBook.save_to_file
  dsimp only
  rw [jsonGetItem_records]
  dsimp only [jsonItems]
  rw [loadRecordsLoop_roundtrip b.data [] hph hbd hnm hnd
        (fun p _ q hq => absurd hq (List.not_mem_nil q))]
  rw [List.nil_append]

/-- Witness for C2: a two-record book (one full record, one bare) saved
and reloaded over a book holding an unrelated record. -/
theorem save_load_roundtrip_witness :
    AddressBook.load_from_file ⟨[("Old", Record.new "Old")]⟩
      (some (.ok (AddressBook.save_to_file
        ⟨[("Ann", ⟨"Ann", ["0123456789"], some "15-06-1990"⟩),
          ("Bob", ⟨"Bob", [], none⟩)]⟩))) =
      (⟨[("Ann", ⟨"Ann", ["0123456789"], some "15-06-1990"⟩),
         ("Bob", ⟨"Bob", [], none⟩)]⟩, .success) :=
  save_load_roundtrip ⟨[("Old", Record.new "Old")]⟩
    ⟨[("Ann", ⟨"Ann", ["0123456789"], some "15-06-1990"⟩),
      ("Bob", ⟨"Bob", [], none⟩)]⟩
    (by decide) (by decide) (by decide) (by decide)

/-- Auxiliary: a phone-adding fold that succeeds validated every string
element it saw. -/
theorem phones_fold_all_ok (els : List Json) :
    ∀ r r' : Record, List.foldlM addPhoneObj r els = .ok r' →
      ∀ s : String, Json.str s ∈ els → (Phone.mk? s).isOk = true := by
  induction els with
  | nil => intro r r' _ s hs; exact absurd hs (List.not_mem_nil _)
  | cons el rest ih =>
    intro r r' hok s hs
    rw [List.foldlM_cons] at hok
    cases hel : addPhoneObj r el with
    | error e =>
      rw [hel] at hok
      simp only [Bind.bind, Except.bind] at hok
      exact Except.noConfusion hok
    | ok r2 =>
      rw [hel] at hok
      simp only [Bind.bind, Except.bind] at hok
      rcases List.mem_cons.mp hs with hh | hh
      · rw [← hh] at hel
        show (Phone.mk? s).isOk = true
        unfold addPhoneObj Record.add_phone at hel
        dsimp only at hel
        cases hp : Phone.mk? s with
        | error e2 =>
          rw [hp] at hel
          exact Except.noConfusion hel
        | ok p => rfl
      · exact ih r2 r' hok s hh

/-- Auxiliary: a record that loads successfully had every stored phone
string pass validation. -/
theorem loadRecord_ok_phones (n : String) (rd : Json) (r : Record)
    (hok : loadRecord n rd = .ok r)
    (pj : Json) (hpj : jsonGetItem rd "phones" = .ok pj)
    (els : List Json) (hels : jsonIterList pj = .ok els)
    (s : String) (hs : Json.str s ∈ els) : (Phone.mk? s).isOk = true := by
  unfold loadRecord at hok
  rw [hpj] at hok
  simp only [Bind.bind, Except.bind] at hok
  rw [hels] at hok
  dsimp only at hok
  cases hf : List.foldlM addPhoneObj (Record.new n) els with
  | error e =>
    rw [hf] at hok
    exact Except.noConfusion hok
  | ok r2 => exact phones_fold_all_ok els (Record.new n) r2 hf s hs

/-- Auxiliary: the load loop never takes the caught-and-reported path. -/
theorem loadRecordsLoop_not_reported (items : List (String × Json)) :
    ∀ acc, (loadRecordsLoop acc items).2 ≠ .reported := by
  induction items with
  | nil => intro acc h; exact LoadOutcome.noConfusion h
  | cons it rest ih =>
    intro acc h
    obtain ⟨n, rd⟩ := it
    unfold loadRecordsLoop at h
    cases hl : loadRecord n rd with
    | error e => rw [hl] at h; exact LoadOutcome.noConfusion h
    | ok rec => rw [hl] at h; exact ih _ h

/-- Auxiliary: a load loop ending in success loaded every entry. -/
theorem loadRecordsLoop_success_all (items : List (String × Json)) :
    ∀ acc, (loadRecordsLoop acc items).2 = .success →
      ∀ p ∈ items, ∃ r, loadRecord p.1 p.2 = .ok r := by
  induction items with
  | nil => intro acc _ p hp; exact absurd hp (List.not_mem_nil p)
  | cons it rest ih =>
    intro acc hsu p hp
    obtain ⟨n, rd⟩ := it
    unfold loadRecordsLoop at hsu
    cases hl : loadRecord n rd with
    | error e => rw [hl] at hsu; exact LoadOutcome.noConfusion hsu
    | ok rec =>
      rw [hl] at hsu
      rcases List.mem_cons.mp hp with hh | hh
      · rw [hh]; exact ⟨rec, hl⟩
      · exact ih _ hsu p hh

/-- Auxiliary: dict assignment introduces at most the assigned key. -/
theorem dictInsert_keys (d : List (String × Record)) (k : String) (v : Record)
    (x : String) (hx : x ∈ (dictInsert d k v).map Prod.fst) :
    x ∈ d.map Prod.fst ∨ x = k := by
  unfold dictInsert at hx
  split at hx
  · rw [List.map_map] at hx
    rcases List.mem_map.mp hx with ⟨p, hp, hpx⟩
    by_cases hpk : p.1 = k
    · right
      simp only [Function.comp, if_pos hpk] at hpx
      exact hpx.symm
    · left
      simp only [Function.comp, if_neg hpk] at hpx
      exact hpx ▸ List.mem_map_of_mem Prod.fst hp
  · rw [List.map_append] at hx
    rcases List.mem_append.mp hx with h | h
    · exact Or.inl h
    · right
      rcases List.mem_map.mp h with ⟨p, hp, hpx⟩
      rw [List.mem_singleton.mp hp] at hpx
      exact hpx.symm

/-- Auxiliary: every key in the load loop's final dict came from the
initial dict or from the processed entries. -/
theorem loadRecordsLoop_keys (items : List (String × Json)) :
    ∀ acc, ∀ q ∈ (loadRecordsLoop acc items).1,
      q.1 ∈ acc.map Prod.fst ∨ q.1 ∈ items.map Prod.fst := by
  induction items with
  | nil => intro acc q hq; exact Or.inl (List.mem_map_of_mem Prod.fst hq)
  | cons it rest ih =>
    intro acc q hq
    obtain ⟨n, rd⟩ := it
    unfold loadRecordsLoop at hq
    cases hl : loadRecord n rd with
    | error e =>
      rw [hl] at hq
      exact Or.inl (List.mem_map_of_mem Prod.fst hq)
    | ok rec =>
      rw [hl] at hq
      rcases ih (dictInsert acc n rec) q hq with hacc | hrest
      · rcases dictInsert_keys acc n rec q.1 hacc with h | h
        · exact Or.inl h
        · right
          rw [List.map_cons, h]
          exact List.mem_cons_self n _
      · right
        rw [List.map_cons]
        exact List.mem_cons_of_mem _ hrest

/-- Claim C10: loading valid JSON in which some record carries a phone
string that fails validation raises uncaught past the handler (which
catches only `FileNotFoundError` / `JSONDecodeError`), and — because
`self.data = {}` ran first — the book afterwards holds only records
rebuilt from the file, so its records from before the call are gone. -/
theorem load_invalid_phone_raises_and_clears (b : AddressBook)
    (j recordsJ : Json) (items : List (String × Json))
    (hrec : jsonGetItem j "records" = .ok recordsJ)
    (hitems : jsonItems recordsJ = .ok items)
    (hbad : ∃ p ∈ items, ∃ pj els s, jsonGetItem p.2 "phones" = .ok pj ∧
        jsonIterList pj = .ok els ∧ Json.str s ∈ els ∧
        (Phone.mk? s).isOk = false) :
    (∃ e, (b.load_from_file (some (.ok j))).2 = .raised e) ∧
    (∀ q ∈ (b.load_from_file (some (.ok j))).1.data,
        q.1 ∈ items.map Prod.fst) := by
  unfold AddressBook.load_from_file
  dsimp only
  rw [hrec]
  dsimp only
  rw [hitems]
  dsimp only
  constructor
  · have hnotsucc : (loadRecordsLoop [] items).2 ≠ .success := by
      intro hsu
      obtain ⟨p, hp, pj, els, s, hpj, hels, hmem, hbadp⟩ := hbad
      obtain ⟨r, hr⟩ := loadRecordsLoop_success_all items [] hsu p hp
      have hv := loadRecord_ok_phones p.1 p.2 r hr pj hpj els hels s hmem
      rw [hv] at hbadp
      exact Bool.noConfusion hbadp
    cases ho : (loadRecordsLoop [] items).2 with
    | success => exact absurd ho hnotsucc
    | reported => exact absurd ho (loadRecordsLoop_not_reported items [])
    | raised e => exact ⟨e, rfl⟩
  · intro q hq
    rcases loadRecordsLoop_keys items [] q hq with h | h
    · rw [List.map_nil] at h
      exact absurd h (List.not_mem_nil q.1)
    · exact h

/-- Witness for C10: a book holding `"Old"` loads a schema-conformant
document whose only record has the invalid phone `"123"`; the load raises
and the resulting book holds at most the file's key `"A"` (in particular,
`"Old"` is gone). -/
theorem load_invalid_phone_raises_and_clears_witness :
    (∃ e, (AddressBook.load_from_file ⟨[("Old", Record.new "Old")]⟩
        (some (.ok (Json.obj [("records", Json.obj [("A",
          Json.obj [("phones", Json.arr [Json.str "123"]),
                    ("birthday", Json.null)])])])))).2 = .raised e) ∧
    (∀ q ∈ (AddressBook.load_from_file ⟨[("Old", Record.new "Old")]⟩
        (some (.ok (Json.obj [("records", Json.obj [("A",
          Json.obj [("phones", Json.arr [Json.str "123"]),
                    ("birthday", Json.null)])])])))).1.data,
        q.1 ∈ ([("A", Json.obj [("phones", Json.arr [Json.str "123"]),
                    ("birthday", Json.null)])].map Prod.fst)) :=
  load_invalid_phone_raises_and_clears ⟨[("Old", Record.new "Old")]⟩
    (Json.obj [("records", Json.obj [("A",
      Json.obj [("phones", Json.arr [Json.str "123"]),
                ("birthday", Json.null)])])])
    (Json.obj [("A", Json.obj [("phones", Json.arr [Json.str "123"]),
                ("birthday", Json.null)])])
    [("A", Json.obj [("phones", Json.arr [Json.str "123"]),
                ("birthday", Json.null)])]
    rfl rfl
    ⟨("A", Json.obj [("phones", Json.arr [Json.str "123"]),
                ("birthday", Json.null)]),
     List.mem_cons_self _ _,
     Json.arr [Json.str "123"], [Json.str "123"], "123",
     rfl, rfl, List.mem_cons_self _ _, rfl⟩

end Hw3
